import Mathlib

/-
  Verification of the launch-argument synthesis and process-invocation
  subsystem of HSTB/explorer/LaunchExplorer.py.

  The embedding translates the source functions CreateArgs, _Launch, Launch,
  CreateIcon, CreateRecentItemsList and the ProgOpts / Program data model.
  External collaborators (installation-path resolver, Windows short-path
  conversion, environment-activation command list) are parameters gathered in
  the `Collab` structure; fallible Windows API calls are modelled as
  Option-returning functions (none = the call raises).  Python exceptions are
  modelled with `Except PyErr`.
-/

namespace LaunchExplorer

/-- RunTypeEnum = enum.IntEnum("RunType", (('PYTHON', 1), ('RAW', 2), )) -/
inductive RunTypeEnum
  | PYTHON
  | RAW
deriving DecidableEq, Repr

/-- Value stored in the `cmd` field of ProgOpts: in the source catalog it is
either a RunTypeEnum sentinel or a raw string (a path or bare command name). -/
inductive CmdVal
  | rte (r : RunTypeEnum)
  | str (s : String)
deriving DecidableEq, Repr

/-- ProgOpts: parameters used to launch a program
(fields in constructor order of ProgOpts.__init__; `args` is stored as a copy
of the list passed in, which in this value-based embedding is automatic). -/
structure ProgOpts where
  args : List String
  cmd : CmdVal
  env : String
  dir : String
  new_console : Bool
  persist_console : Bool
deriving DecidableEq, Repr

/-- External collaborators of the synthesizer, fixed for a given installation:
  - `PathToSitePkgs`: distutils.sysconfig.get_python_lib()
  - `get_short_path_name`: win32api.GetShortPathName; `none` models the call
    raising (it raises when the argument is not a full path)
  - `path_to_NOAA_site_packages`: resolver returning an absolute path under
    the installation's NOAA/site-packages root
  - `path_to_NOAA_activate`: the value path_to_NOAA("..\\Scripts\\activate.bat")
  - `create_env_cmd_list`: HSTB.resources.create_env_cmd_list(env, persist)
  - `path_to_HSTB`: the installation root path_to_HSTB()
  - `noaa_sitepkg_dir`: path_to_NOAA("site-packages") (used for get_updates.bat) -/
structure Collab where
  PathToSitePkgs : String
  get_short_path_name : String → Option String
  path_to_NOAA_site_packages : String → String
  path_to_NOAA_activate : String
  create_env_cmd_list : String → Bool → List String
  path_to_HSTB : String
  noaa_sitepkg_dir : String

/-- Python exceptions that the embedded code paths can raise. -/
inductive PyErr
  | indexError
  | winApiError
  | spawnError
deriving DecidableEq, Repr

/-
  Python string primitives, implemented over the character list `String.data`
  so that every definition reduces in the kernel (the corresponding core
  String functions use well-founded recursion and do not).
-/

/-- Whether `pat` is an initial segment of `l`. -/
def listStartsWith [DecidableEq α] : List α → List α → Bool
  | _, [] => true
  | [], _ :: _ => false
  | x :: xs, y :: ys => x == y && listStartsWith xs ys

/-- Index (from `i`) of the first occurrence of `sub` in `l`, -1 when absent
(the helper behind Python str.find). -/
def findSubAux [DecidableEq α] (l sub : List α) (i : Nat) : Int :=
  match l with
  | [] => if sub.isEmpty then (i : Int) else -1
  | _ :: tl => if listStartsWith l sub then (i : Int) else findSubAux tl sub (i + 1)

/-- Python s.find(sub): character index of the first occurrence, -1 when
absent. -/
def pyFind (s sub : String) : Int :=
  findSubAux s.data sub.data 0

/-- Python s[:i] (slice from the start; a negative index counts from the end,
out-of-range clamps). -/
def pySliceTo (s : String) (i : Int) : String :=
  if i < 0 then ⟨s.data.take (s.data.length - i.natAbs)⟩ else ⟨s.data.take i.toNat⟩

/-- Python s.lower(). -/
def pyLower (s : String) : String :=
  ⟨s.data.map Char.toLower⟩

/-- Python s.endswith(pat). -/
def pyEndsWith (s pat : String) : Bool :=
  listStartsWith s.data.reverse pat.data.reverse

/-- Python s[:-n] for n >= 1: drop the last n characters. -/
def pyDropRight (s : String) (n : Nat) : String :=
  ⟨s.data.take (s.data.length - n)⟩

/-- Python s[-1] as an Option: the last character, none on the empty string
(where Python raises IndexError). -/
def pyLastChar (s : String) : Option Char :=
  s.data.getLast?

/-- Python sep.join(parts). -/
def pyJoin (sep : String) : List String → String
  | [] => ""
  | [x] => x
  | x :: xs => x ++ sep ++ pyJoin sep xs

/-- PathToSitePkgs[:PathToSitePkgs.lower().find('lib')] + "python.exe"
(the runtime binary currently hosting the launcher, line 1054). -/
def currentInterpreter (sitePkgs : String) : String :=
  pySliceTo sitePkgs (pyFind (pyLower sitePkgs) "lib") ++ "python.exe"

/-- Executable resolution of CreateArgs (lines 1050-1056).  The source guard
`run_opts.cmd == RunTypeEnum.PYTHON or run_opts.cmd == RunTypeEnum.RAW` holds
exactly for the enum case of CmdVal (a string never compares equal to an
IntEnum member); in the else branch pathToExe = run_opts.cmd, the raw string. -/
def resolveExe (c : Collab) (run_opts : ProgOpts) : String :=
  match run_opts.cmd with
  | CmdVal.rte _ =>
      if run_opts.env ≠ "" then "python" else currentInterpreter c.PathToSitePkgs
  | CmdVal.str s => s

/-- try: pathToExe = get_short_path_name(pathToExe) except Exception: pass
(lines 1059-1062): best-effort short-path conversion, failure swallowed. -/
def shortOrSame (c : Collab) (p : String) : String :=
  match c.get_short_path_name p with
  | some s => s
  | none => p

/-- Lines 1050-1066 of CreateArgs: resolve the executable, prepend it when
non-empty (after best-effort short-path conversion), then prepend the
environment-activation command list when an env is set.  The source also
computes cmd_switch = "/K" if persist_console else "/C" at line 1049; that
local is never used inside CreateArgs.  The unprotected
get_short_path_name(path_to_NOAA("..\\Scripts\\activate.bat")) at line 1065
can raise; its result (pathToActivate) is otherwise unused. -/
def assembleArgs (c : Collab) (run_opts : ProgOpts) : Except PyErr (List String) :=
  let pathToExe := resolveExe c run_opts
  let args := run_opts.args
  let args := if pathToExe ≠ "" then shortOrSame c pathToExe :: args else args
  if run_opts.env ≠ "" then
    match c.get_short_path_name c.path_to_NOAA_activate with
    | none => Except.error PyErr.winApiError
    | some _ => Except.ok (c.create_env_cmd_list run_opts.env run_opts.persist_console ++ args)
  else Except.ok args

/-- Lines 1067-1070 of CreateArgs:
    if args[-1].endswith("&&"): args[-1] = args[-1][:-2]
    if not args[-1]: args.pop(-1)
`args[-1]` on an empty list raises IndexError. -/
def cleanupLast (args : List String) : Except PyErr (List String) :=
  match args.getLast? with
  | none => Except.error PyErr.indexError
  | some last =>
    let args2 := if pyEndsWith last "&&" then args.dropLast ++ [pyDropRight last 2] else args
    match args2.getLast? with
    | none => Except.error PyErr.indexError
    | some l2 => Except.ok (if l2 = "" then args2.dropLast else args2)

/-- Lines 1071-1073 of CreateArgs: the start directory is the short form of
path_to_NOAA_site_packages(run_opts.dir); get_short_path_name here is
unprotected, and `full_start_directory[-1]` raises IndexError on an empty
string; a single trailing backslash or slash is stripped. -/
def startDirOf (c : Collab) (dir : String) : Except PyErr String :=
  match c.get_short_path_name (c.path_to_NOAA_site_packages dir) with
  | none => Except.error PyErr.winApiError
  | some full_start_directory =>
    match pyLastChar full_start_directory with
    | none => Except.error PyErr.indexError
    | some ch =>
      Except.ok
        (if ch == '\\' || ch == '/' then pyDropRight full_start_directory 1
        else full_start_directory)

/-- XmlDRFrame.CreateArgs (lines 1036-1076): returns
sub_args = [full_start_directory] + [str(a) for a in args]  (str() is the
identity on the string tokens involved). -/
def CreateArgs (c : Collab) (run_opts : ProgOpts) : Except PyErr (List String) :=
  match assembleArgs c run_opts with
  | Except.error e => Except.error e
  | Except.ok args =>
    match cleanupLast args with
    | Except.error e => Except.error e
    | Except.ok args =>
      match startDirOf c run_opts.dir with
      | Except.error e => Except.error e
      | Except.ok full_start_directory => Except.ok (full_start_directory :: args)

/-- CreateArgs together with the state of the descriptor object after the
call.  The source reads run_opts fields but never assigns to them; its only
in-place list edits act on the local copy made at line 1057
(`args = copy.copy(run_opts.args)`), so the descriptor after the call is
exactly the one passed in. -/
def CreateArgsSt (c : Collab) (run_opts : ProgOpts) : Except PyErr (List String) × ProgOpts :=
  (CreateArgs c run_opts, run_opts)

/-- `run_opts.cmd not in RunTypeEnum` (line 1079), negated: membership of the
cmd value in the RunTypeEnum enumeration.  Under the enum semantics of the
deployed interpreter (member/value containment, Python <= 3.7 or >= 3.12) a
string is never a member; enum sentinels are.  (Python 3.8-3.11 would raise
TypeError on the string case, an even larger divergence.) -/
def cmdInRunTypeEnum : CmdVal → Bool
  | CmdVal.rte _ => true
  | CmdVal.str _ => false

/-- The guard of _Launch (line 1079):
`if run_opts.dir or run_opts.args or run_opts.cmd not in RunTypeEnum`
with Python truthiness of the string and list fields. -/
def launchable (run_opts : ProgOpts) : Bool :=
  (run_opts.dir != "") || (!run_opts.args.isEmpty) || (!cmdInRunTypeEnum run_opts.cmd)

/-- Outcome of one _Launch call: the exception that propagated out (if any),
the process working directory when the call ended, and whether
subprocess.Popen was reached. -/
structure LaunchResult where
  err : Option PyErr
  cwd : String
  spawnAttempted : Bool
deriving DecidableEq, Repr

/-- XmlDRFrame._Launch (lines 1078-1090).  `spawnOk` is an oracle for whether
subprocess.Popen succeeds on the synthesized argument vector.  Note the
source has no try/finally: an exception raised by CreateArgs or by Popen
propagates and skips the final os.chdir(path_to_HSTB()). -/
def LaunchUnder (c : Collab) (spawnOk : Bool) (run_opts : ProgOpts) (cwd0 : String) :
    LaunchResult :=
  if launchable run_opts then
    match CreateArgs c run_opts with
    | Except.error e => { err := some e, cwd := cwd0, spawnAttempted := false }
    | Except.ok sub_args =>
      -- os.chdir(sub_args[0]); CreateArgs always returns a non-empty vector
      let cwd1 := sub_args.headD cwd0
      if spawnOk then { err := none, cwd := c.path_to_HSTB, spawnAttempted := true }
      else { err := some PyErr.spawnError, cwd := cwd1, spawnAttempted := true }
  else { err := none, cwd := c.path_to_HSTB, spawnAttempted := false }

/-- ProgOpts.copy (lines 96-97): ProgOpts(self.args, self.cmd, self.env,
self.dir, self.new_console, self.persist_console); the constructor copies the
args list, so the result is an independent value. -/
def ProgOptsCopy (o : ProgOpts) : ProgOpts :=
  ⟨o.args, o.cmd, o.env, o.dir, o.new_console, o.persist_console⟩

/-- Lines 1098-1101 of Launch: with dbg, rebind opts to a copy with
persist_console and new_console forced to True; without dbg, use the stored
options as they are. -/
def debugOpts (dbg : Bool) (opts : ProgOpts) : ProgOpts :=
  if dbg then { ProgOptsCopy opts with persist_console := true, new_console := true }
  else opts

/-- The recent-list / state-file effect of XmlDRFrame.Launch (lines 1092-1103):
self.recent.append(programName) happens first; when dbg is set the launch uses
a mutated copy of the options; pickle.dump(self.recent, ...) runs only if
_Launch returned without raising (serialization itself is abstracted as
writing the list).  Returns (self.recent afterwards, file contents written, or
none when the dump was not reached). -/
def LaunchRecentEffect (c : Collab) (spawnOk : Bool) (opts : ProgOpts)
    (programName : String) (dbg : Bool) (recent : List String) (cwd0 : String) :
    List String × Option (List String) :=
  let recent1 := recent ++ [programName]
  match (LaunchUnder c spawnOk (debugOpts dbg opts) cwd0).err with
  | none => (recent1, some recent1)
  | some _ => (recent1, none)

/-- Python l[-n:] on lists: the last n elements (the whole list when shorter). -/
def pyTakeLast (n : Nat) (l : List α) : List α :=
  l.drop (l.length - n)

/-- The self.recent effect of XmlDRFrame.CreateRecentItemsList (lines
1305-1310): reload the pickle file and truncate to the last 40 entries; on any
exception (no file) keep the current in-memory list.  The rest of the method
only builds the "My Recent" menu group from collections.Counter.most_common(5)
and does not touch self.recent. -/
def CreateRecentItemsListRecent (file : Option (List String)) (recent : List String) :
    List String :=
  match file with
  | some l => pyTakeLast 40 l
  | none => recent

/-- `val in ProgramList` for an association-list model of the ProgramList
dictionary. -/
def containsKey (catalog : List (String × α)) (k : String) : Bool :=
  catalog.any (fun p => p.1 == k)

/-- ProgramList.pop(k) with the KeyError swallowed (lines 165-168). -/
def dictPop (catalog : List (String × α)) (k : String) : List (String × α) :=
  catalog.filter (fun p => p.1 != k)

/-- ProgramList[k] = v on the association-list model: replace an existing
binding, otherwise append a new one. -/
def dictSet (catalog : List (String × α)) (k : String) (v : α) : List (String × α) :=
  if containsKey catalog k then
    catalog.map (fun p => if p.1 == k then (k, v) else p)
  else catalog ++ [(k, v)]

/-- The Program.name setter (lines 161-170): raise on a duplicate name before
touching the mapping, otherwise pop the old binding (KeyError from a missing
or None old name is swallowed) and insert the new one.  `old` is self._name
(None at construction time).  Returns the raised message (if any) and the
ProgramList mapping afterwards. -/
def setProgramName (catalog : List (String × α)) (old : Option String)
    (val : String) (entry : α) : Option String × List (String × α) :=
  if containsKey catalog val then
    (some (val ++ " Duplicate program name"), catalog)
  else
    let c1 := match old with
      | some o => dictPop catalog o
      | none => catalog
    (none, dictSet c1 val entry)

def defaultProgOpts : ProgOpts := ⟨[], CmdVal.str "", "", "", false, false⟩

/-- Association lookup of a program name in a catalog that maps names to
indices into an explicit store of ProgOpts objects (the store models Python
object identity: two names aliasing one object share an index). -/
def lookupIdx (catalog : List (String × Nat)) (n : String) : Option Nat :=
  (catalog.find? (fun p => p.1 == n)).map (fun p => p.2)

/-- The catalog-entry effect of XmlDRFrame.Launch (lines 1097-1101) on the
object store: `opts = ProgramList[programName].opts` yields the stored object
at index i; with dbg the code rebinds opts to opts.copy() - a fresh object,
modelled as a new cell appended to the store - and mutates persist_console
and new_console on that fresh cell; without dbg no mutation happens.  Returns
the store afterwards and the index of the object handed to _Launch. -/
def LaunchStoreEffect (store : List ProgOpts) (i : Nat) (dbg : Bool) :
    List ProgOpts × Nat :=
  if dbg then
    let o := store.getD i defaultProgOpts
    let copy := { ProgOptsCopy o with persist_console := true, new_console := true }
    (store ++ [copy], store.length)
  else (store, i)

/-- A shell shortcut as written by CreateIcon: Targetpath = args[1],
Arguments = ' '.join(args[2:]) (set only when len(args) > 2),
WorkingDirectory = args[0]. -/
structure Shortcut where
  Targetpath : String
  Arguments : Option String
  WorkingDirectory : String
deriving DecidableEq, Repr

/-- Replace a trailing "&&" of a token by a single "&" (a[:-1]), the per-token
loop of CreateIcon at lines 1158-1160. -/
def fixAmp (a : String) : String :=
  if pyEndsWith a "&&" then pyDropRight a 1 else a

/-- get_short_path_name(os.path.join(noaa_sitepkg_dir, "..", "get_updates.bat"))
(line 1156); the join is the Windows concatenation with separators. -/
def get_updates_path (c : Collab) : Option String :=
  c.get_short_path_name (c.noaa_sitepkg_dir ++ "\\..\\get_updates.bat")

/-- Python list.insert(i, a): insert before position i, appending when i is
past the end. -/
def pyInsert (l : List α) (i : Nat) (a : α) : List α :=
  match i, l with
  | 0, l => a :: l
  | _+1, [] => [a]
  | i+1, x :: xs => x :: pyInsert xs i a

/-- ind = 3 if args[1].lower() == "cmd.exe" and args[2][:2] in ("/C", "/K")
else 1  (line 1154; `and` short-circuits, so args[2] is only read - and can
only raise IndexError - when args[1] is cmd.exe). -/
def updateInsertIndex (args : List String) : Except PyErr Nat :=
  match args[1]? with
  | none => Except.error PyErr.indexError
  | some a1 =>
    if pyLower a1 == "cmd.exe" then
      match args[2]? with
      | none => Except.error PyErr.indexError
      | some a2 =>
        Except.ok (if pySliceTo a2 2 == "/C" || pySliceTo a2 2 == "/K" then 3 else 1)
    else Except.ok 1

/-- Lines 1153-1156 of CreateIcon: when the entry's cmd is the PYTHON
sentinel, insert "&" and then the short path of get_updates.bat at the
computed index (so the pair lands as [get_updates, "&"] at that index). -/
def insertUpdateCheck (c : Collab) (opts : ProgOpts) (args : List String) :
    Except PyErr (List String) :=
  if opts.cmd == CmdVal.rte RunTypeEnum.PYTHON then
    match updateInsertIndex args with
    | Except.error e => Except.error e
    | Except.ok ind =>
      match get_updates_path c with
      | none => Except.error PyErr.winApiError
      | some upd => Except.ok (pyInsert (pyInsert args ind "&") ind upd)
  else Except.ok args

/-- The shortcut-content computation of XmlDRFrame.CreateIcon (lines
1113-1165): synthesize the vector with CreateArgs, optionally insert the
auto-update preamble, replace any trailing "&&" of each token by "&", then
write Targetpath = args[1], Arguments = ' '.join(args[2:]) when len(args) > 2,
WorkingDirectory = args[0].  Folder/path/icon handling of the host shell is
outside the argument semantics and omitted. -/
def CreateIcon (c : Collab) (opts : ProgOpts) : Except PyErr Shortcut :=
  match CreateArgs c opts with
  | Except.error e => Except.error e
  | Except.ok args0 =>
    match insertUpdateCheck c opts args0 with
    | Except.error e => Except.error e
    | Except.ok args1 =>
      let args := args1.map fixAmp
      match args[1]? with
      | none => Except.error PyErr.indexError
      | some tp =>
        Except.ok
          { Targetpath := tp,
            Arguments :=
              if args.length > 2 then some (pyJoin " " (args.drop 2)) else none,
            WorkingDirectory := args.headD "" }

/-- Spec-level description of what the last-token cleanup leaves in place of
the last assembled token (used to state the amended C5): strip one trailing
chain marker, then drop the token when it is empty. -/
def cleanTail (t : String) : List String :=
  if pyEndsWith t "&&" then (if pyDropRight t 2 = "" then [] else [pyDropRight t 2])
  else if t = "" then [] else [t]

/-- A concrete installation for witnesses and counterexamples: short-path
conversion is the identity (every input is a valid full path), the
site-packages resolver prefixes C:\NSP\, and create_env_cmd_list has the
cmd.exe, /C or /K switch, activate, env, && shape its call sites expect. -/
def collab1 : Collab :=
  { PathToSitePkgs := "C:\\Pydro21\\Lib\\site-packages",
    get_short_path_name := fun s => some s,
    path_to_NOAA_site_packages := fun d => "C:\\NSP\\" ++ d,
    path_to_NOAA_activate := "C:\\Pydro21\\Scripts\\activate.bat",
    create_env_cmd_list := fun env persist =>
      ["cmd.exe", (if persist then "/K" else "/C"),
       "C:\\Pydro21\\Scripts\\activate.bat", env, "&&"],
    path_to_HSTB := "C:\\Pydro21\\NOAA\\HSTB",
    noaa_sitepkg_dir := "C:\\NSP" }

/-- A plain PythonOpts-style descriptor: run script.py with the current
interpreter, no environment. -/
def opts1 : ProgOpts := ⟨["script.py"], CmdVal.rte RunTypeEnum.PYTHON, "", "", false, false⟩

/-- The options of the docs-only catalog entry Program("Beets", ...) (line
182): run_opts defaults to ProgOpts(), i.e. empty args, cmd and env. -/
def beetsOpts : ProgOpts := ⟨[], CmdVal.str "", "", "", false, false⟩

/-- The options of the catalog entry "HSRR helper" (lines 206-210):
a raw-string cmd of "" together with a non-empty environment name. -/
def hsrrOpts : ProgOpts :=
  ⟨["C:\\NSP\\enablePyQt.bat", "&&", "python", "HSRR_GUI.py"], CmdVal.str "",
   "Pydro367", "Python3\\HSTB\\HSRR_GUI", true, false⟩

/-- A current-interpreter descriptor with a non-empty start directory. -/
def opts4 : ProgOpts := ⟨["x.py"], CmdVal.rte RunTypeEnum.PYTHON, "", "sub", false, false⟩

/-- A descriptor whose argument list ends with a token ending in the chain
marker followed by a lone chain-marker token. -/
def chainOpts : ProgOpts :=
  ⟨["a&&", "&&"], CmdVal.str "C:\\NSP\\foo.exe", "", "", false, false⟩

/-! Theorems -/

/-- C2: for the descriptor with empty arguments, empty cmd string and empty
env - e.g. the "Beets" catalog entry - the launch operation is NOT a no-op:
the guard of _Launch evaluates `"" not in RunTypeEnum` as true, so the launch
branch is entered, CreateArgs is called, and it raises IndexError at
`args[-1]` on the empty vector; the exception propagates out of _Launch and
no process is spawned, but the operation crashes instead of being
informational-only. -/
theorem launch_empty_descriptor_raises :
    launchable beetsOpts = true ∧
    CreateArgs collab1 beetsOpts = Except.error PyErr.indexError ∧
    LaunchUnder collab1 true beetsOpts "C:\\Work" =
      { err := some PyErr.indexError, cwd := "C:\\Work", spawnAttempted := false } :=
  ⟨rfl, rfl, rfl⟩

/-- C3 counterexample: the catalog entry "HSRR helper" has a non-empty env
("Pydro367") together with a raw-string cmd (""); the executable-resolution
step yields the raw cmd value, not "python", so resolution to "python" does
not hold regardless of the executable selector. -/
theorem resolveExe_env_raw_counterexample :
    hsrrOpts.env ≠ "" ∧ resolveExe collab1 hsrrOpts ≠ "python" :=
  ⟨by decide, by decide⟩

/-- C3 amended: for every descriptor with a non-empty env, the
executable-resolution step of CreateArgs yields "python" exactly when the cmd
field is a RunTypeEnum sentinel (PYTHON or RAW); when cmd is a raw string,
that string itself is the resolved executable, even though env is set. -/
theorem resolveExe_with_env (c : Collab) (o : ProgOpts) (h : o.env ≠ "") :
    resolveExe c o = (match o.cmd with
      | CmdVal.rte _ => "python"
      | CmdVal.str s => s) := by
  unfold resolveExe
  cases o.cmd with
  | rte r => simp [h]
  | str s => rfl

/-- C3 amended, witness at the "HSRR helper" entry. -/
theorem resolveExe_with_env_witness :
    resolveExe collab1 hsrrOpts = (match hsrrOpts.cmd with
      | CmdVal.rte _ => "python"
      | CmdVal.str s => s) :=
  resolveExe_with_env collab1 hsrrOpts (by decide)

/-- C7: whenever CreateArgs returns a vector, its element 0 is the short-path
form of the descriptor's start directory resolved against the installation's
site-packages root, with a single trailing path separator stripped. -/
theorem createArgs_head_is_short_start_dir (c : Collab) (o : ProgOpts)
    (v : List String) (h : CreateArgs c o = Except.ok v) :
    ∃ s ch, c.get_short_path_name (c.path_to_NOAA_site_packages o.dir) = some s ∧
      pyLastChar s = some ch ∧
      v.head? = some (if ch == '\\' || ch == '/' then pyDropRight s 1 else s) := by
  unfold CreateArgs at h
  split at h
  · simp at h
  next args h1 =>
    split at h
    · simp at h
    next args4 h2 =>
      split at h
      · simp at h
      next fsd h3 =>
        unfold startDirOf at h3
        split at h3
        · simp at h3
        next s h4 =>
          split at h3
          · simp at h3
          next ch h5 =>
            refine ⟨s, ch, h4, h5, ?_⟩
            cases h
            cases h3
            rfl

/-- C7 witness at a concrete descriptor and installation. -/
theorem createArgs_head_is_short_start_dir_witness :
    ∃ s ch, collab1.get_short_path_name (collab1.path_to_NOAA_site_packages opts1.dir) = some s ∧
      pyLastChar s = some ch ∧
      (["C:\\NSP", "C:\\Pydro21\\python.exe", "script.py"] : List String).head? =
        some (if ch == '\\' || ch == '/' then pyDropRight s 1 else s) :=
  createArgs_head_is_short_start_dir collab1 opts1
    ["C:\\NSP", "C:\\Pydro21\\python.exe", "script.py"] rfl

/-- C8: registering an entry under a display name already present in the
catalog raises "<name> Duplicate program name" before any mutation, so the
mapping afterwards is exactly the mapping before. -/
theorem setProgramName_duplicate_raises_unchanged {α : Type} (catalog : List (String × α))
    (old : Option String) (val : String) (entry : α)
    (h : containsKey catalog val = true) :
    setProgramName catalog old val entry =
      (some (val ++ " Duplicate program name"), catalog) := by
  unfold setProgramName
  rw [if_pos h]

/-- C8 witness: re-registering "Beets" into a catalog that already binds it. -/
theorem setProgramName_duplicate_raises_unchanged_witness :
    setProgramName [("Beets", beetsOpts)] none "Beets" beetsOpts =
      (some ("Beets Duplicate program name"), [("Beets", beetsOpts)]) :=
  setProgramName_duplicate_raises_unchanged [("Beets", beetsOpts)] none "Beets" beetsOpts rfl

/-- C9: CreateArgs is deterministic and mutation-free - with the
installation-root / path-canonicalization / environment-activation
collaborators fixed, two descriptors with equal field values yield identical
vectors, and the descriptor after a call is the descriptor passed in (the
source copies run_opts.args before its in-place edits and never assigns a
run_opts field). -/
theorem createArgs_deterministic_and_pure (c : Collab) (o₁ o₂ : ProgOpts)
    (h1 : o₁.args = o₂.args) (h2 : o₁.cmd = o₂.cmd) (h3 : o₁.env = o₂.env)
    (h4 : o₁.dir = o₂.dir) (h5 : o₁.new_console = o₂.new_console)
    (h6 : o₁.persist_console = o₂.persist_console) :
    CreateArgs c o₁ = CreateArgs c o₂ ∧
    (CreateArgsSt c o₁).2 = o₁ ∧ (CreateArgsSt c o₂).2 = o₂ := by
  have ho : o₁ = o₂ := by
    cases o₁; cases o₂; simp_all
  subst ho
  exact ⟨rfl, rfl, rfl⟩

/-- C9 witness. -/
theorem createArgs_deterministic_and_pure_witness :
    CreateArgs collab1 opts1 = CreateArgs collab1 opts1 ∧
    (CreateArgsSt collab1 opts1).2 = opts1 ∧ (CreateArgsSt collab1 opts1).2 = opts1 :=
  createArgs_deterministic_and_pure collab1 opts1 opts1 rfl rfl rfl rfl rfl rfl

/-- C10: a Launch call leaves the ProgOpts stored for the launched program
name unchanged: with dbg the mutations (persist_console/new_console := true)
hit the fresh object produced by opts.copy(), and without dbg nothing is
mutated, so the store cell the catalog maps the name to holds the same field
values afterwards. -/
theorem launch_store_entry_unchanged (store : List ProgOpts)
    (catalog : List (String × Nat)) (name : String) (i : Nat) (dbg : Bool)
    (hl : lookupIdx catalog name = some i) (hi : i < store.length) :
    ((LaunchStoreEffect store i dbg).1)[i]? = store[i]? := by
  cases dbg with
  | false => rfl
  | true =>
    show (store ++ [_])[i]? = store[i]?
    exact List.getElem?_append_left hi

/-- C10 witness: a one-entry catalog launched in debug mode. -/
theorem launch_store_entry_unchanged_witness :
    ((LaunchStoreEffect [opts1] 0 true).1)[0]? = ([opts1] : List ProgOpts)[0]? :=
  launch_store_entry_unchanged [opts1] [("List XmlDR Stats", 0)] "List XmlDR Stats" 0 true
    rfl (by decide)

/-- C4 counterexample: _Launch has no try/finally, so when subprocess.Popen
fails the exception propagates and the final os.chdir(path_to_HSTB()) is
skipped: the working directory stays at the child's start directory, which
differs from the installation root. -/
theorem launch_spawn_failure_cwd_not_restored :
    LaunchUnder collab1 false opts4 "C:\\Work" =
      { err := some PyErr.spawnError, cwd := "C:\\NSP\\sub", spawnAttempted := true } ∧
    "C:\\NSP\\sub" ≠ collab1.path_to_HSTB :=
  ⟨rfl, by decide⟩

/-- C4 amended: when the launch operation completes without raising (spawn
succeeded, or the entry was not launchable), the working directory ends at
the installation root; an exception from argument synthesis or from the spawn
propagates out of _Launch and skips the restoring chdir. -/
theorem launch_success_restores_cwd (c : Collab) (o : ProgOpts) (w : String)
    (h : (LaunchUnder c true o w).err = none) :
    (LaunchUnder c true o w).cwd = c.path_to_HSTB := by
  unfold LaunchUnder at h ⊢
  split at h
  next hl =>
    rw [if_pos hl]
    cases hc : CreateArgs c o with
    | error e => rw [hc] at h; simp at h
    | ok sa => rfl
  next hl =>
    rw [if_neg hl]

/-- C4 amended, witness. -/
theorem launch_success_restores_cwd_witness :
    (LaunchUnder collab1 true opts4 "C:\\Work").cwd = collab1.path_to_HSTB :=
  launch_success_restores_cwd collab1 opts4 "C:\\Work" rfl

/-- C5 counterexample: on a descriptor whose argument list ends with
["a&&", "&&"], the cleanup strips and drops the final "&&" token, exposing
"a&&" - so the returned vector's last token does end with the chain marker,
refuting the claim's "never ends with &&" conjunct. -/
theorem createArgs_last_token_chain_counterexample :
    CreateArgs collab1 chainOpts = Except.ok ["C:\\NSP", "C:\\NSP\\foo.exe", "a&&"] ∧
    (["C:\\NSP", "C:\\NSP\\foo.exe", "a&&"] : List String).getLast? = some "a&&" ∧
    pyEndsWith "a&&" "&&" = true :=
  ⟨rfl, rfl, rfl⟩

/-- C5 amended: the cleanup acts on the last assembled token only: one
trailing chain marker is stripped from it, and the token is then removed when
it is empty (also when it was empty to begin with); the earlier tokens are
returned untouched, so a newly exposed last token may itself still end with
the chain marker. -/
theorem cleanupLast_cleans_only_last_token (xs : List String) (t : String) :
    cleanupLast (xs ++ [t]) = Except.ok (xs ++ cleanTail t) := by
  cases hb : pyEndsWith t "&&" with
  | true =>
    by_cases he : pyDropRight t 2 = ""
    · simp [cleanupLast, cleanTail, hb, he, List.getLast?_concat, List.dropLast_concat]
    · simp [cleanupLast, cleanTail, hb, he, List.getLast?_concat, List.dropLast_concat]
  | false =>
    by_cases ht : t = ""
    · subst ht
      simp [cleanupLast, cleanTail, pyEndsWith, listStartsWith, List.getLast?_concat,
        List.dropLast_concat]
    · simp [cleanupLast, cleanTail, hb, ht, List.getLast?_concat, List.dropLast_concat]

/-- C6 counterexample: Launch appends the program name to the in-memory
recent list and writes it to the state file without truncation; starting from
a (fully loaded) list of 40 entries, the file written after one more launch
holds 41 entries. -/
theorem launch_file_exceeds_cap :
    (LaunchRecentEffect collab1 true opts4 "XmlDR" false
        (List.replicate 40 "Velocipy") "C:\\Work").2 =
      some (List.replicate 40 "Velocipy" ++ ["XmlDR"]) ∧
    ¬ ((List.replicate 40 "Velocipy" ++ ["XmlDR"]).length ≤ 40) :=
  ⟨rfl, by decide⟩

/-- C6 amended: the 40-entry cap is enforced when the list is reloaded
(CreateRecentItemsList truncates the pickled list to its last 40 names), not
when it is written: a launch writes the in-memory list plus the new name, so
a file written right after a reload holds the truncated list plus one name -
at most 41 entries. -/
theorem launch_after_reload_file_bounded (c : Collab) (spawnOk : Bool) (o : ProgOpts)
    (name : String) (dbg : Bool) (w : String) (l r : List String) (f : List String)
    (h : (LaunchRecentEffect c spawnOk o name dbg
        (CreateRecentItemsListRecent (some l) r) w).2 = some f) :
    f = pyTakeLast 40 l ++ [name] ∧ f.length ≤ 41 := by
  have hrl : CreateRecentItemsListRecent (some l) r = pyTakeLast 40 l := rfl
  rw [hrl] at h
  unfold LaunchRecentEffect at h
  split at h
  · dsimp only at h
    injection h with h
    subst h
    refine ⟨rfl, ?_⟩
    simp only [pyTakeLast, List.length_append, List.length_drop, List.length_cons,
      List.length_nil]
    omega
  · dsimp only at h
    simp at h

/-- C6 amended, witness. -/
theorem launch_after_reload_file_bounded_witness :
    (["a", "b", "XmlDR"] : List String) = pyTakeLast 40 ["a", "b"] ++ ["XmlDR"] ∧
    (["a", "b", "XmlDR"] : List String).length ≤ 41 :=
  launch_after_reload_file_bounded collab1 true opts4 "XmlDR" false "C:\\Work"
    ["a", "b"] [] ["a", "b", "XmlDR"] rfl

/-- C1 counterexample: for a cmd == RunTypeEnum.PYTHON descriptor with no
environment, CreateIcon inserts the update-check command at index 1 - in
front of the executable - so the update command becomes the shortcut's
Targetpath and does not occur in the written argument string at all
(pyFind = -1), refuting "appears in the argument string immediately after
the executable reference". -/
theorem createIcon_update_not_in_arguments :
    CreateIcon collab1 opts1 = Except.ok
      { Targetpath := "C:\\NSP\\..\\get_updates.bat",
        Arguments := some "& C:\\Pydro21\\python.exe script.py",
        WorkingDirectory := "C:\\NSP" } ∧
    pyFind "& C:\\Pydro21\\python.exe script.py" "get_updates.bat" = -1 :=
  ⟨rfl, rfl⟩

/-- C1 amended: when cmd is the PYTHON sentinel and the synthesized vector
[dir, exe, rest...] does not start with a cmd.exe preamble, CreateIcon
inserts the update-check command and the chain marker immediately BEFORE the
executable token (at index 1): the update command becomes the shortcut's
target and the argument string is the chain marker, then the executable
reference, then the original script arguments. -/
theorem createIcon_python_update_precedes_exe (c : Collab) (o : ProgOpts)
    (d exe : String) (rest : List String) (u : String)
    (hca : CreateArgs c o = Except.ok (d :: exe :: rest))
    (hcmd : o.cmd = CmdVal.rte RunTypeEnum.PYTHON)
    (hlow : pyLower exe ≠ "cmd.exe")
    (hupd : get_updates_path c = some u) :
    CreateIcon c o = Except.ok
      { Targetpath := fixAmp u,
        Arguments := some (pyJoin " " (List.map fixAmp ("&" :: exe :: rest))),
        WorkingDirectory := fixAmp d } := by
  have hf : (pyLower exe == "cmd.exe") = false := beq_eq_false_iff_ne.mpr hlow
  have hins : insertUpdateCheck c o (d :: exe :: rest) =
      Except.ok (d :: u :: "&" :: exe :: rest) := by
    unfold insertUpdateCheck updateInsertIndex
    rw [hcmd]
    simp [hf, hupd, pyInsert]
  unfold CreateIcon
  simp only [hca, hins]
  simp [List.length_cons, pyJoin, List.map]

/-- C1 amended, witness. -/
theorem createIcon_python_update_precedes_exe_witness :
    CreateIcon collab1 opts1 = Except.ok
      { Targetpath := fixAmp "C:\\NSP\\..\\get_updates.bat",
        Arguments := some (pyJoin " "
          (List.map fixAmp ("&" :: "C:\\Pydro21\\python.exe" :: ["script.py"]))),
        WorkingDirectory := fixAmp "C:\\NSP" } :=
  createIcon_python_update_precedes_exe collab1 opts1 "C:\\NSP"
    "C:\\Pydro21\\python.exe" ["script.py"] "C:\\NSP\\..\\get_updates.bat"
    rfl rfl (by decide) rfl

end LaunchExplorer
